import Mathlib

/-!
Shallow embedding of `Relay_Control_One_Ch.py` (KMTronic USB relay control GUI).

The program has four behavioural parts, each embedded below from the source:

* port discovery (`find_relay_ports`): enumerate serial ports, keep those
  whose hardware-id string contains the product-id substring `"6001"`,
  building a dict from serial number to device path;
* command sending (`send_command`): open the selected port, write one of two
  fixed 2-byte frames, catching every exception and turning it into an error
  dialog;
* the toggle/UI logic of `RelayControlApp` (`toggle_relay`, `update_ui`):
  per-relay boolean state, a status-circle colour and a button label;
* the description store (`load_descriptions`, `save_descriptions`,
  `save_description`, `clear_description`): a JSON file mapping relay serial
  numbers to free-text labels.

Python dicts are embedded as association lists with in-place-overwrite
insertion (Python dict assignment keeps the key's position), strings as
`String` or `List Char`, and the effects of the `serial` library and of
`messagebox` dialogs as explicit data (an environment value chooses the
failure mode, dialogs are returned as values).  The `json` library is
embedded abstractly: a file is either absent, present-but-malformed, or
present with a parsed mapping; `json.dump` followed by `json.load` is the
identity on string-to-string mappings, which the embedding records by
letting `save_descriptions m` produce the file state that parses to `m`.
-/

/-! ### Association lists with Python dict semantics -/

/-- Lookup of a key in an association list (Python `d[k]` / `d.get(k)`). -/
def lookupKey {α : Type} : List (String × α) → String → Option α
  | [], _ => none
  | (k', v) :: t, k => if k' = k then some v else lookupKey t k

/-- Python dict assignment `d[k] = v`: overwrite in place if the key exists,
otherwise append at the end. -/
def dictInsert {α : Type} (k : String) (v : α) : List (String × α) → List (String × α)
  | [] => [(k, v)]
  | (k', v') :: t => if k' = k then (k, v) :: t else (k', v') :: dictInsert k v t

/-- Python `del d[k]`: remove the entry for `k` (a dict holds each key at
most once; removing every occurrence makes the list model agree with it). -/
def dictErase {α : Type} (k : String) : List (String × α) → List (String × α)
  | [] => []
  | (k', v) :: t => if k' = k then dictErase k t else (k', v) :: dictErase k t

/-- Python substring test `needle in hay` on the character lists. -/
def listContainsSub (needle : List Char) : List Char → Bool
  | [] => needle.isPrefixOf []
  | c :: t => needle.isPrefixOf (c :: t) || listContainsSub needle t

/-- Python substring test `needle in hay` on strings. -/
def strContains (hay needle : String) : Bool :=
  listContainsSub needle.data hay.data

/-! ### Port discovery (`find_relay_ports`, lines 10-16) -/

/-- The fields of a `serial.tools.list_ports` entry that the program reads. -/
structure PortInfo where
  device : String
  serial_number : String
  hwid : String
deriving DecidableEq

/-- `PRODUCT_ID = "6001"  # USB Relay Product ID` (line 8). -/
def PRODUCT_ID : String := "6001"

/-- Body of the discovery loop: `if PRODUCT_ID in port.hwid:
relays[port.serial_number] = port.device`. -/
def addPort (relays : List (String × String)) (port : PortInfo) : List (String × String) :=
  if strContains port.hwid PRODUCT_ID then
    dictInsert port.serial_number port.device relays
  else
    relays

/-- `find_relay_ports()`: fold the loop body over the enumerated ports,
starting from the empty dict `relays = {}`. -/
def find_relay_ports (ports : List PortInfo) : List (String × String) :=
  ports.foldl addPort []

/-! ### Command sending (`send_command`, lines 18-23) -/

/-- Environment for one `send_command` call: how the `serial` library
behaves.  Opening the port can raise (missing, busy, permission denied),
the write can raise (disconnected mid-write), or both succeed. -/
inductive SerialEnv where
  | openFail (msg : String)
  | writeFail (msg : String)
  | ok
deriving DecidableEq

/-- The 2-byte frame: `b'\xFF\x01' if state else b'\xFF\x00'` (line 21). -/
def commandFrame (state : Bool) : List Nat :=
  if state then [0xFF, 0x01] else [0xFF, 0x00]

/-- The body of the `try:` block: open the port, write the frame, close.
`Except` carries the Python exception; `.ok` returns the frames written. -/
def send_attempt (env : SerialEnv) (state : Bool) : Except String (List (List Nat)) :=
  match env with
  | SerialEnv.openFail msg => Except.error msg
  | SerialEnv.writeFail msg => Except.error msg
  | SerialEnv.ok => Except.ok [commandFrame state]

/-- Observable outcome of `send_command`: the byte frames written to the
port and the error dialog shown, if any.  The function returns this plainly
(not wrapped in `Except`), embedding the fact that the `except` clause
catches every exception: nothing propagates past the boundary. -/
structure SendResult where
  written : List (List Nat)
  dialog : Option String
deriving DecidableEq

/-- `send_command(port, state)`: run the `try:` body; on an exception `e`
show `messagebox.showerror("Error", f"Failed to send command: ...")` with
the underlying message, and return normally either way. -/
def send_command (env : SerialEnv) (port : String) (state : Bool) : SendResult :=
  match send_attempt env state with
  | Except.ok frames => { written := frames, dialog := none }
  | Except.error e => { written := [], dialog := some ("Failed to send command: " ++ e) }

/-- All frames written across a sequence of `send_command` calls, each call
given by its environment, port argument and state argument. -/
def writesOf (calls : List (SerialEnv × String × Bool)) : List (List Nat) :=
  (calls.map (fun c => (send_command c.1 c.2.1 c.2.2).written)).foldr (· ++ ·) []

/-! ### Toggle and UI state (`toggle_relay`, `update_ui`, lines 110-127) -/

/-- The per-relay UI state of `RelayControlApp`: `relay_states[sn]`, the
status circle's fill colour, the toggle button's text, and the single
globally selected COM port string. -/
structure UIState where
  relay_states : String → Bool
  circle_fill : String → String
  btn_text : String → String
  selected_com_port : String

/-- `update_ui(serial_num)` (lines 121-127): repaint the circle
(`"green" if state else "red"`) and the button (`"ON" if state else "OFF"`)
from the current in-memory state. -/
def update_ui (sn : String) (st : UIState) : UIState :=
  let state := st.relay_states sn
  { st with
    circle_fill := fun x => if x = sn then (if state then "green" else "red") else st.circle_fill x,
    btn_text := fun x => if x = sn then (if state then "ON" else "OFF") else st.btn_text x }

/-- `toggle_relay(serial_num)` (lines 110-119).  Returns the new state and
`some` send result when a send was attempted, `none` when the empty-port
guard fired (the "Please select a COM port first!" dialog) and the method
returned early.  Note the source flips `relay_states[serial_num]`
unconditionally after `send_command`, whatever the send outcome was. -/
def toggle_relay (env : SerialEnv) (sn : String) (st : UIState) : UIState × Option SendResult :=
  let current_state := st.relay_states sn
  let new_state := !current_state
  let port := st.selected_com_port
  if port = "" then
    (st, none)
  else
    let r := send_command env port new_state
    let st1 := { st with relay_states := fun x => if x = sn then new_state else st.relay_states x }
    (update_ui sn st1, some r)

/-- A relay row whose widgets agree with its in-memory state: the invariant
every reachable state satisfies (rows start `false`/`"red"`/`"OFF"` and
`update_ui` re-establishes it after each toggle). -/
def UISync (sn : String) (st : UIState) : Prop :=
  st.circle_fill sn = (if st.relay_states sn then "green" else "red") ∧
  st.btn_text sn = (if st.relay_states sn then "ON" else "OFF")

/-! ### Description store (lines 43-52, 129-139) -/

/-- In-memory `relay_descriptions`: serial number to description text. -/
abbrev Descs := List (String × List Char)

/-- The backing `relay_descriptions.json` file: absent, present but not
valid JSON (with its raw text), or present and parsing to a mapping. -/
inductive DescFile where
  | absent
  | invalid (raw : String)
  | valid (m : Descs)
deriving DecidableEq

/-- `load_descriptions` (lines 43-47): if the file does not exist the
mapping keeps its initial value `{}`; otherwise `json.load` either parses
the file or raises `json.JSONDecodeError`, which no handler catches. -/
def load_descriptions : DescFile → Except String Descs
  | DescFile.absent => Except.ok []
  | DescFile.invalid _ => Except.error "Expecting value: line 1 column 1 (char 0)"
  | DescFile.valid m => Except.ok m

/-- `save_descriptions` (lines 49-52): `json.dump` overwrites the file with
the serialization of the full mapping; reading that file back with
`json.load` yields the same mapping, so the resulting file state is the one
that parses to `m`. -/
def save_descriptions (m : Descs) : DescFile :=
  DescFile.valid m

/-- Python `str.isspace()` on the ASCII whitespace characters `str.strip()`
removes: space, tab, newline, vertical tab, form feed, carriage return. -/
def pyIsSpace (c : Char) : Bool :=
  c = ' ' || c = '\t' || c = '\n' || c = '\x0b' || c = '\x0c' || c = '\r'

/-- Trailing-whitespace strip (the right half of Python `str.strip()`). -/
def stripRight (l : List Char) : List Char :=
  (l.reverse.dropWhile pyIsSpace).reverse

/-- Python `str.strip()`: drop whitespace from both ends. -/
def pyStrip (l : List Char) : List Char :=
  (stripRight l).dropWhile pyIsSpace

/-- Tk `ScrolledText.get("1.0", "end")`: the widget content plus the text
widget's automatic trailing newline. -/
def tkGetEnd (content : List Char) : List Char :=
  content ++ ['\n']

/-- The description-store state of `RelayControlApp`: the in-memory dict,
the per-relay description box contents, and the backing file. -/
structure StoreState where
  relay_descriptions : Descs
  boxes : String → List Char
  file : DescFile

/-- `save_description(serial_num)` (lines 129-133): read the box, strip it,
store it in the dict, and save the whole dict to the file. -/
def save_description (sn : String) (st : StoreState) : StoreState :=
  let text := pyStrip (tkGetEnd (st.boxes sn))
  let m := dictInsert sn text st.relay_descriptions
  { st with relay_descriptions := m, file := save_descriptions m }

/-- `clear_description(serial_num)` (lines 135-139): empty the box; only if
the key is present in the in-memory dict, delete it and save. -/
def clear_description (sn : String) (st : StoreState) : StoreState :=
  let st0 := { st with boxes := fun x => if x = sn then [] else st.boxes x }
  if (lookupKey st0.relay_descriptions sn).isSome then
    let m := dictErase sn st0.relay_descriptions
    { st0 with relay_descriptions := m, file := save_descriptions m }
  else
    st0

/-- Store states reachable by the application: at startup the dict is
loaded from the file (or stays `{}` when the file is absent), and every
later mutation immediately saves the full dict, so the file always parses
to the in-memory dict, or is still absent with an empty dict. -/
def StoreSync (st : StoreState) : Prop :=
  st.file = DescFile.valid st.relay_descriptions ∨
    (st.file = DescFile.absent ∧ st.relay_descriptions = [])

/-! ### Helper lemmas -/

theorem lookupKey_dictInsert_self {α : Type} (k : String) (v : α) (m : List (String × α)) :
    lookupKey (dictInsert k v m) k = some v := by
  induction m with
  | nil => simp [dictInsert, lookupKey]
  | cons h t ih =>
    obtain ⟨k', v'⟩ := h
    by_cases hk : k' = k
    · simp [dictInsert, hk, lookupKey]
    · simp [dictInsert, hk, lookupKey, ih]

theorem lookupKey_dictInsert_ne {α : Type} (k : String) (v : α) (m : List (String × α))
    (k' : String) (h : k' ≠ k) :
    lookupKey (dictInsert k v m) k' = lookupKey m k' := by
  have hne : ¬ k = k' := fun hh => h hh.symm
  induction m with
  | nil => simp [dictInsert, lookupKey, hne]
  | cons p t ih =>
    obtain ⟨k₀, v₀⟩ := p
    by_cases hk : k₀ = k
    · subst hk
      simp [dictInsert, lookupKey, hne]
    · simp only [dictInsert, hk, if_false, lookupKey]
      by_cases hk' : k₀ = k'
      · simp [hk']
      · simp [hk', ih]

theorem lookupKey_dictErase_self {α : Type} (k : String) (m : List (String × α)) :
    lookupKey (dictErase k m) k = none := by
  induction m with
  | nil => simp [dictErase, lookupKey]
  | cons p t ih =>
    obtain ⟨k₀, v₀⟩ := p
    by_cases hk : k₀ = k
    · simp [dictErase, hk, ih]
    · simp [dictErase, hk, lookupKey, ih]

theorem foldl_addPort_not_mem (ports : List PortInfo) (acc : List (String × String))
    (k : String) (h : ∀ p ∈ ports, p.serial_number ≠ k) :
    lookupKey (ports.foldl addPort acc) k = lookupKey acc k := by
  induction ports generalizing acc with
  | nil => rfl
  | cons q rest ih =>
    have hq : q.serial_number ≠ k := h q (List.mem_cons_self q rest)
    have hrest : ∀ p ∈ rest, p.serial_number ≠ k := fun p hp => h p (List.mem_cons_of_mem q hp)
    rw [List.foldl_cons, ih (addPort acc q) hrest]
    unfold addPort
    by_cases hc : strContains q.hwid PRODUCT_ID = true
    · rw [if_pos hc]
      exact lookupKey_dictInsert_ne q.serial_number q.device acc k (fun hh => hq hh.symm)
    · rw [if_neg hc]

theorem foldl_addPort_match (ports : List PortInfo) (p : PortInfo)
    (hnd : (ports.map PortInfo.serial_number).Nodup) (hp : p ∈ ports)
    (hc : strContains p.hwid PRODUCT_ID = true) (acc : List (String × String)) :
    lookupKey (ports.foldl addPort acc) p.serial_number = some p.device := by
  induction ports generalizing acc with
  | nil => exact absurd hp (List.not_mem_nil p)
  | cons q rest ih =>
    rw [List.map_cons, List.nodup_cons] at hnd
    rcases List.mem_cons.mp hp with hpq | hpr
    · subst hpq
      have hrest : ∀ r ∈ rest, r.serial_number ≠ p.serial_number := by
        intro r hr he
        exact hnd.1 (he ▸ List.mem_map_of_mem PortInfo.serial_number hr)
      rw [List.foldl_cons, foldl_addPort_not_mem rest _ _ hrest]
      unfold addPort
      rw [if_pos hc]
      exact lookupKey_dictInsert_self p.serial_number p.device acc
    · rw [List.foldl_cons]
      exact ih hnd.2 hpr (addPort acc q)

theorem foldl_addPort_no_match (ports : List PortInfo) (p : PortInfo)
    (hnd : (ports.map PortInfo.serial_number).Nodup) (hp : p ∈ ports)
    (hc : strContains p.hwid PRODUCT_ID = false) (acc : List (String × String)) :
    lookupKey (ports.foldl addPort acc) p.serial_number = lookupKey acc p.serial_number := by
  induction ports generalizing acc with
  | nil => exact absurd hp (List.not_mem_nil p)
  | cons q rest ih =>
    rw [List.map_cons, List.nodup_cons] at hnd
    rcases List.mem_cons.mp hp with hpq | hpr
    · subst hpq
      have hrest : ∀ r ∈ rest, r.serial_number ≠ p.serial_number := by
        intro r hr he
        exact hnd.1 (he ▸ List.mem_map_of_mem PortInfo.serial_number hr)
      rw [List.foldl_cons, foldl_addPort_not_mem rest _ _ hrest]
      unfold addPort
      rw [if_neg (by rw [hc]; exact Bool.false_ne_true)]
    · have hqp : q.serial_number ≠ p.serial_number := by
        intro he
        exact hnd.1 (he ▸ List.mem_map_of_mem PortInfo.serial_number hpr)
      rw [List.foldl_cons, ih hnd.2 hpr (addPort acc q)]
      unfold addPort
      by_cases hcq : strContains q.hwid PRODUCT_ID = true
      · rw [if_pos hcq]
        exact lookupKey_dictInsert_ne q.serial_number q.device acc p.serial_number
          (fun hh => hqp hh.symm)
      · rw [if_neg hcq]

theorem pyStrip_tkGetEnd (l : List Char) : pyStrip (tkGetEnd l) = pyStrip l := by
  have hnl : pyIsSpace '\n' = true := by decide
  simp [pyStrip, stripRight, tkGetEnd, List.dropWhile_cons, hnl]

/-! ### Claim theorems -/

/-- C1 counterexample: with relay `"SN1"` off and port `"COM3"` selected, a
failing serial open makes `send_command` report a `CommandError` dialog, yet
`toggle_relay` still flips the in-memory state from `false` to `true` — the
claim that the state is left as before the attempt is false on the code. -/
theorem toggle_relay_flips_on_error_cex :
    (toggle_relay (SerialEnv.openFail "could not open port") "SN1"
        { relay_states := fun _ => false, circle_fill := fun _ => "red",
          btn_text := fun _ => "OFF", selected_com_port := "COM3" }).2 =
      some { written := [], dialog := some "Failed to send command: could not open port" } ∧
    (toggle_relay (SerialEnv.openFail "could not open port") "SN1"
        { relay_states := fun _ => false, circle_fill := fun _ => "red",
          btn_text := fun _ => "OFF", selected_com_port := "COM3" }).1.relay_states "SN1" =
      true := by
  constructor <;> rfl

/-- C1 amended: when a port is selected, `toggle_relay` flips the in-memory
`RelayState` for the row unconditionally after the send attempt, whatever
the send outcome; the state is left unchanged only when no port is selected
(in which case no send is attempted at all). -/
theorem toggle_relay_unconditional_flip (env : SerialEnv) (sn : String) (st : UIState) :
    (st.selected_com_port ≠ "" →
      (toggle_relay env sn st).1.relay_states sn = !(st.relay_states sn)) ∧
    (st.selected_com_port = "" → (toggle_relay env sn st).1 = st) := by
  constructor
  · intro h
    simp [toggle_relay, h, update_ui]
  · intro h
    simp [toggle_relay, h]

/-- C1 amended witness: concrete flip-despite-failure instance. -/
theorem toggle_relay_unconditional_flip_witness :
    (toggle_relay (SerialEnv.writeFail "device disconnected") "SN1"
        { relay_states := fun _ => false, circle_fill := fun _ => "red",
          btn_text := fun _ => "OFF", selected_com_port := "COM3" }).1.relay_states "SN1" =
      true :=
  (toggle_relay_unconditional_flip (SerialEnv.writeFail "device disconnected") "SN1"
      { relay_states := fun _ => false, circle_fill := fun _ => "red",
        btn_text := fun _ => "OFF", selected_com_port := "COM3" }).1 (by decide)

/-- C2: a successful `send_command(port, true)` writes exactly the frame
`[0xFF, 0x01]` and `send_command(port, false)` exactly `[0xFF, 0x00]`; a
failed call writes nothing; and across any sequence of calls every frame
written is one of those two. -/
theorem send_command_writes_fixed_frames :
    (∀ env port, (send_command env port true).written = [] ∨
        (send_command env port true).written = [[0xFF, 0x01]]) ∧
    (∀ env port, (send_command env port false).written = [] ∨
        (send_command env port false).written = [[0xFF, 0x00]]) ∧
    (∀ port, (send_command SerialEnv.ok port true).written = [[0xFF, 0x01]]) ∧
    (∀ port, (send_command SerialEnv.ok port false).written = [[0xFF, 0x00]]) ∧
    (∀ calls : List (SerialEnv × String × Bool), ∀ bs ∈ writesOf calls,
      bs = [0xFF, 0x01] ∨ bs = [0xFF, 0x00]) := by
  refine ⟨?_, ?_, fun port => rfl, fun port => rfl, ?_⟩
  · intro env port
    cases env <;> simp [send_command, send_attempt, commandFrame]
  · intro env port
    cases env <;> simp [send_command, send_attempt, commandFrame]
  · intro calls bs hbs
    induction calls with
    | nil => simp [writesOf] at hbs
    | cons c rest ih =>
      simp only [writesOf, List.map_cons, List.foldr_cons] at hbs
      rcases List.mem_append.mp hbs with h1 | h2
      · obtain ⟨env, port, state⟩ := c
        cases env <;> cases state <;>
          simp [send_command, send_attempt, commandFrame] at h1 <;> simp [h1]
      · exact ih h2

/-- C2 witness: one concrete call of each kind, with the membership
hypothesis discharged on a concrete call list. -/
theorem send_command_writes_fixed_frames_witness :
    [0xFF, 0x01] ∈ writesOf [(SerialEnv.ok, "COM3", true), (SerialEnv.ok, "COM3", false)] ∧
    ([0xFF, 0x01] = [0xFF, 0x01] ∨ [0xFF, 0x01] = [0xFF, 0x00]) :=
  ⟨by decide,
    send_command_writes_fixed_frames.2.2.2.2
      [(SerialEnv.ok, "COM3", true), (SerialEnv.ok, "COM3", false)] [0xFF, 0x01] (by decide)⟩

/-- C3: with pairwise-distinct serial numbers, a port's serial number maps
to its device path in `find_relay_ports`'s result iff the port's hardware-id
string contains the substring `"6001"`. -/
theorem find_relay_ports_contains_6001 (ports : List PortInfo)
    (hnd : (ports.map PortInfo.serial_number).Nodup) (p : PortInfo) (hp : p ∈ ports) :
    lookupKey (find_relay_ports ports) p.serial_number = some p.device ↔
      strContains p.hwid PRODUCT_ID = true := by
  constructor
  · intro h
    by_cases hc : strContains p.hwid PRODUCT_ID = true
    · exact hc
    · have hc2 : strContains p.hwid PRODUCT_ID = false := Bool.eq_false_iff.mpr hc
      rw [find_relay_ports, foldl_addPort_no_match ports p hnd hp hc2] at h
      exact absurd h (by simp [lookupKey])
  · intro hc
    exact foldl_addPort_match ports p hnd hp hc []

/-- C3 witness: of two ports with hwids `"USB VID:PID=1A86:6001"` and
`"USB VID:PID=1A86:7000"`, the first appears mapped to its device path. -/
theorem find_relay_ports_contains_6001_witness :
    lookupKey (find_relay_ports
        [{ device := "COM3", serial_number := "A1", hwid := "USB VID:PID=1A86:6001" },
         { device := "COM4", serial_number := "B2", hwid := "USB VID:PID=1A86:7000" }])
      "A1" = some "COM3" :=
  (find_relay_ports_contains_6001
      [{ device := "COM3", serial_number := "A1", hwid := "USB VID:PID=1A86:6001" },
       { device := "COM4", serial_number := "B2", hwid := "USB VID:PID=1A86:7000" }]
      (by decide)
      { device := "COM3", serial_number := "A1", hwid := "USB VID:PID=1A86:6001" }
      (by decide)).mpr (by decide)

/-- C4: `load_descriptions` yields the empty mapping when the backing file
is absent, and a propagated parse error when the file exists but is not
valid JSON (there is no handler between `json.load` and the caller). -/
theorem load_descriptions_absent_and_invalid :
    load_descriptions DescFile.absent = Except.ok [] ∧
    ∀ raw, ∃ e, load_descriptions (DescFile.invalid raw) = Except.error e :=
  ⟨rfl, fun _ => ⟨"Expecting value: line 1 column 1 (char 0)", rfl⟩⟩

/-- C5: from any reachable store state, `clear_description k` followed by
`load_descriptions` yields a mapping without key `k`, even if `k` was
present before the clear. -/
theorem clear_then_load_absent (sn : String) (st : StoreState) (hs : StoreSync st) :
    ∃ m', load_descriptions (clear_description sn st).file = Except.ok m' ∧
      lookupKey m' sn = none := by
  by_cases hk : (lookupKey st.relay_descriptions sn).isSome
  · refine ⟨dictErase sn st.relay_descriptions, ?_, lookupKey_dictErase_self sn _⟩
    simp [clear_description, hk, save_descriptions, load_descriptions]
  · have hnone : lookupKey st.relay_descriptions sn = none :=
      Option.not_isSome_iff_eq_none.mp hk
    rcases hs with hv | ⟨ha, hm⟩
    · exact ⟨st.relay_descriptions,
        by simp [clear_description, hk, hv, load_descriptions], hnone⟩
    · exact ⟨[], by simp [clear_description, hk, ha, load_descriptions], rfl⟩

/-- C5 witness: clearing `"SN123"` from a synced store holding it. -/
theorem clear_then_load_absent_witness :
    ∃ m', load_descriptions
        (clear_description "SN123"
          { relay_descriptions := [("SN123", "Pump relay".data)],
            boxes := fun _ => [],
            file := DescFile.valid [("SN123", "Pump relay".data)] }).file = Except.ok m' ∧
      lookupKey m' "SN123" = none :=
  clear_then_load_absent "SN123"
    { relay_descriptions := [("SN123", "Pump relay".data)],
      boxes := fun _ => [],
      file := DescFile.valid [("SN123", "Pump relay".data)] }
    (Or.inl rfl)

/-- C6: loading a store, saving the loaded mapping back unchanged, and
loading again yields the same mapping. -/
theorem save_load_idempotent (f : DescFile) (m : Descs)
    (h : load_descriptions f = Except.ok m) :
    load_descriptions (save_descriptions m) = Except.ok m :=
  rfl

/-- C6 witness: round trip on a store holding one entry. -/
theorem save_load_idempotent_witness :
    load_descriptions (save_descriptions [("SN123", "Pump relay".data)]) =
      Except.ok [("SN123", "Pump relay".data)] :=
  save_load_idempotent (DescFile.valid [("SN123", "Pump relay".data)])
    [("SN123", "Pump relay".data)] rfl

/-- C7: `send_command` returns normally on every environment (its result
type is plain data, the `except` clause having caught the exception raised
inside `send_attempt`); a dialog is absent exactly on a successful attempt;
open failures and write failures collapse into the same single error dialog
carrying the underlying message; and at most one frame is written — no
retry. -/
theorem send_command_no_raise (env : SerialEnv) (port : String) (state : Bool) :
    ((send_command env port state).dialog = none ↔
      send_attempt env state = Except.ok [commandFrame state]) ∧
    (∀ m, send_attempt env state = Except.error m →
      send_command env port state =
        { written := [], dialog := some ("Failed to send command: " ++ m) }) ∧
    (∀ m, (send_command (SerialEnv.openFail m) port state).dialog =
        (send_command (SerialEnv.writeFail m) port state).dialog) ∧
    (send_command env port state).written.length ≤ 1 := by
  refine ⟨?_, ?_, fun m => rfl, ?_⟩
  · cases env <;> simp [send_command, send_attempt]
  · intro m hm
    cases env <;> simp [send_attempt] at hm <;> simp [send_command, send_attempt, hm]
  · cases env <;> simp [send_command, send_attempt]

/-- C7 witness: a failing open is reported as a single dialog with the
underlying message and nothing written. -/
theorem send_command_no_raise_witness :
    send_command (SerialEnv.openFail "could not open port COM9") "COM9" true =
      { written := [], dialog := some "Failed to send command: could not open port COM9" } :=
  (send_command_no_raise (SerialEnv.openFail "could not open port COM9") "COM9" true).2.1
    "could not open port COM9" rfl

/-- C8: with a port selected and the row's widgets in sync with its state,
toggling the relay twice returns the in-memory state, the indicator colour
and the button label to their original values. -/
theorem toggle_twice_restores (env1 env2 : SerialEnv) (sn : String) (st : UIState)
    (hport : st.selected_com_port ≠ "") (hsync : UISync sn st) :
    ((toggle_relay env2 sn (toggle_relay env1 sn st).1).1.relay_states sn =
      st.relay_states sn) ∧
    ((toggle_relay env2 sn (toggle_relay env1 sn st).1).1.circle_fill sn =
      st.circle_fill sn) ∧
    ((toggle_relay env2 sn (toggle_relay env1 sn st).1).1.btn_text sn =
      st.btn_text sn) := by
  obtain ⟨hfill, htext⟩ := hsync
  cases hstate : st.relay_states sn <;>
    simp [toggle_relay, hport, update_ui, hfill, htext, hstate]

/-- C8 witness: double toggle on a concrete off/red/OFF row. -/
theorem toggle_twice_restores_witness :
    (toggle_relay SerialEnv.ok "SN1" (toggle_relay SerialEnv.ok "SN1"
        { relay_states := fun _ => false, circle_fill := fun _ => "red",
          btn_text := fun _ => "OFF", selected_com_port := "COM3" }).1).1.relay_states "SN1" =
      false :=
  (toggle_twice_restores SerialEnv.ok SerialEnv.ok "SN1"
      { relay_states := fun _ => false, circle_fill := fun _ => "red",
        btn_text := fun _ => "OFF", selected_com_port := "COM3" }
      (by decide) ⟨rfl, rfl⟩).1

/-- C9: after `save_description`, the persisted file parses to a mapping
whose value for the key is the entered box text with leading and trailing
whitespace stripped — the widget's synthetic trailing newline included. -/
theorem save_description_strips (sn : String) (st : StoreState) :
    ∃ m', load_descriptions (save_description sn st).file = Except.ok m' ∧
      lookupKey m' sn = some (pyStrip (st.boxes sn)) := by
  refine ⟨dictInsert sn (pyStrip (tkGetEnd (st.boxes sn))) st.relay_descriptions, rfl, ?_⟩
  rw [lookupKey_dictInsert_self, pyStrip_tkGetEnd]

/-- C10: clearing a key absent from the in-memory mapping leaves the
backing file untouched — no save is performed. -/
theorem clear_absent_key_no_write (sn : String) (st : StoreState)
    (h : lookupKey st.relay_descriptions sn = none) :
    (clear_description sn st).file = st.file := by
  simp [clear_description, h]

/-- C10 witness: clearing `"SN999"`, absent from a store holding only
`"SN123"`, leaves the file identical. -/
theorem clear_absent_key_no_write_witness :
    (clear_description "SN999"
        { relay_descriptions := [("SN123", "Pump relay".data)],
          boxes := fun _ => [],
          file := DescFile.valid [("SN123", "Pump relay".data)] }).file =
      DescFile.valid [("SN123", "Pump relay".data)] :=
  clear_absent_key_no_write "SN999"
    { relay_descriptions := [("SN123", "Pump relay".data)],
      boxes := fun _ => [],
      file := DescFile.valid [("SN123", "Pump relay".data)] }
    (by decide)
